import Mathlib

/-!
Verification of the papyruspdf-api PDF gateway (src/src/index.ts).

The repository contains two variants of the same POST /pdf handler: one
calling the rendering provider through the Cloudflare SDK client
(`client.browserRendering.pdf.create`, lines 108-211) and one calling it
through a raw `fetch` (lines 350-422). Both are embedded below as pure
functions from the request's html, the environment configuration and the
provider's behaviour (given as an oracle) to the HTTP response together
with the outbound provider call the handler made, if any.
-/

namespace PapyrusPdf

/-- A JSON object as this gateway builds them: a flat list of fields whose
values are strings (every JSON body the source constructs has this shape). -/
abbrev JsonObj : Type := List (String × String)

/-- Whether a JSON object carries a field with the given key. -/
def JsonObj.hasKey (j : JsonObj) (k : String) : Bool :=
  j.any (fun p => p.1 == k)

/-- An HTTP response body: raw bytes (the PDF passthrough) or JSON. -/
inductive ResponseBody where
  | bytes (payload : List Nat)
  | json (j : JsonObj)
deriving DecidableEq

/-- An HTTP response as the handler builds it: status, headers, body. -/
structure HttpResponse where
  status : Nat
  headers : List (String × String)
  body : ResponseBody
deriving DecidableEq

/-- The worker environment (interface Env, src/src/index.ts lines 5-8):
both configuration strings are optional. -/
structure Env where
  CLOUDFLARE_ACCOUNT_ID : Option String
  CLOUDFLARE_API_TOKEN : Option String
deriving DecidableEq

/-- JavaScript falsiness of a possibly-absent string: `undefined` and the
empty string are falsy, every other string is truthy. This is the semantics
of the source's `!html`, `!accountId`, `!apiToken` tests. -/
def jsFalsy : Option String → Bool
  | none => true
  | some s => s == ""

/-- The fixed 400 validation message (src/src/index.ts line 116). -/
def htmlRequiredMsg : String := "HTML content is required in the request body"

/-- The fixed 500 configuration message (src/src/index.ts lines 128-129). -/
def credentialsMsg : String :=
  "Cloudflare credentials not configured. Please set CLOUDFLARE_ACCOUNT_ID and CLOUDFLARE_API_TOKEN environment variables."

/-- The catch-branch error message (src/src/index.ts line 205). -/
def failedMsg : String := "Failed to generate PDF"

/-- The fetch variant's non-ok provider error message (line 395). -/
def upstreamFailedMsg : String := "Failed to generate PDF from Cloudflare API"

/-- The Tailwind script URL injected by the SDK variant (line 181). -/
def tailwindUrl : String := "https://cdn.jsdelivr.net/npm/@tailwindcss/browser@4"

/-- A thrown JavaScript value: either an Error instance with a message, or
any other value. Mirrors the catch branch's `error instanceof Error` test. -/
inductive JsException where
  | errorInstance (message : String)
  | otherValue
deriving DecidableEq

/-- What `error instanceof Error ? error.message : "Unknown error"`
evaluates to (src/src/index.ts line 206). -/
def JsException.detailsOf : JsException → String
  | .errorInstance m => m
  | .otherValue => "Unknown error"

/-- The argument object the SDK variant passes to
`client.browserRendering.pdf.create` (src/src/index.ts lines 176-189):
account id, the request's html, the script-tag injection list (URLs) and
the printBackground flag of pdfOptions. -/
structure SdkCreateParams where
  account_id : String
  html : String
  addScriptTag : List String
  printBackground : Bool
deriving DecidableEq

/-- The provider's behaviour at the SDK call site: the awaited call either
resolves to a response whose arrayBuffer gives the payload, or throws. -/
inductive SdkOutcome where
  | payload (bs : List Nat)
  | thrown (e : JsException)
deriving DecidableEq

/-- The outbound HTTP request the fetch variant builds (lines 378-388):
URL with the account id interpolated, bearer authorization, JSON content
type, and the body `JSON.stringify(\x7b html \x7d)`. -/
structure FetchRequest where
  url : String
  authorization : String
  contentType : String
  body : JsonObj
deriving DecidableEq

/-- The provider's behaviour at the fetch call site: either a response with
a status, error text and payload bytes (`response.ok` is derived as
200 ≤ status ≤ 299), or a thrown exception. -/
inductive FetchOutcome where
  | resp (status : Nat) (text : String) (bs : List Nat)
  | thrown (e : JsException)
deriving DecidableEq

/-- A JSON response as `c.json(body, status)` produces it. -/
def jsonResponse (status : Nat) (j : JsonObj) : HttpResponse :=
  { status := status
    headers := [("Content-Type", "application/json")]
    body := .json j }

/-- The success response `new Response(pdfBuffer, \x7b headers \x7d)`
(src/src/index.ts lines 195-200): status 200 by default, the two fixed
headers, and the provider's bytes unchanged. -/
def pdfSuccessResponse (bs : List Nat) : HttpResponse :=
  { status := 200
    headers := [("Content-Type", "application/pdf"),
                ("Content-Disposition", "attachment; filename=\"generated.pdf\"")]
    body := .bytes bs }

/-- The POST /pdf handler, SDK variant (src/src/index.ts lines 108-211).
The second component records the outbound provider call, if one was made.
Modelled from the spec: the schema-validation facility in front of the
handler is an external collaborator (spec section 1); per the spec
(section 4.1 step 1 and scenario 2), an absent `html` field short-circuits
exactly like an empty one through the handler's own `if (!html)` presence
check, so the parsed html reaches the handler as an `Option String` and the
check fires on `none` and on `some ""`. -/
def convertSdk (env : Env) (html : Option String) (outcome : SdkOutcome) :
    HttpResponse × Option SdkCreateParams :=
  if jsFalsy html then
    (jsonResponse 400 [("error", htmlRequiredMsg)], none)
  else if jsFalsy env.CLOUDFLARE_ACCOUNT_ID || jsFalsy env.CLOUDFLARE_API_TOKEN then
    (jsonResponse 500 [("error", credentialsMsg)], none)
  else
    let params : SdkCreateParams :=
      { account_id := env.CLOUDFLARE_ACCOUNT_ID.getD ""
        html := html.getD ""
        addScriptTag := [tailwindUrl]
        printBackground := true }
    match outcome with
    | .payload bs => (pdfSuccessResponse bs, some params)
    | .thrown e =>
        (jsonResponse 500
          [("error", failedMsg), ("details", e.detailsOf)],
         some params)

/-- The POST /pdf handler, raw-fetch variant (src/src/index.ts lines
350-422). The second component records the outbound provider call, if one
was made. The validation layer in front of the handler is modelled exactly
as in `convertSdk` (see its doc comment). On a non-ok provider response the
handler returns the provider's own status (`response.status`, line 398 —
the TypeScript annotation there is a cast, not a conversion). -/
def convertFetch (env : Env) (html : Option String) (outcome : FetchOutcome) :
    HttpResponse × Option FetchRequest :=
  if jsFalsy html then
    (jsonResponse 400 [("error", htmlRequiredMsg)], none)
  else if jsFalsy env.CLOUDFLARE_ACCOUNT_ID || jsFalsy env.CLOUDFLARE_API_TOKEN then
    (jsonResponse 500 [("error", credentialsMsg)], none)
  else
    let req : FetchRequest :=
      { url := "https://api.cloudflare.com/client/v4/accounts/" ++
               env.CLOUDFLARE_ACCOUNT_ID.getD "" ++ "/browser-rendering/pdf"
        authorization := "Bearer " ++ env.CLOUDFLARE_API_TOKEN.getD ""
        contentType := "application/json"
        body := [("html", html.getD "")] }
    match outcome with
    | .resp status text bs =>
        if 200 ≤ status ∧ status ≤ 299 then
          (pdfSuccessResponse bs, some req)
        else
          (jsonResponse status
            [("error", upstreamFailedMsg), ("details", text)],
           some req)
    | .thrown e =>
        (jsonResponse 500
          [("error", failedMsg), ("details", e.detailsOf)],
         some req)

/-- Whether a JSON object carries an `error` field; in this model every
field value is a string, so this is an `error` field with a string value. -/
def hasErrorString (j : JsonObj) : Bool := j.hasKey "error"

/-- The Success outcome shape: status 200 with a byte body. -/
def isSuccess (r : HttpResponse) : Prop :=
  r.status = 200 ∧ ∃ bs, r.body = .bytes bs

/-- The Failure outcome shape: a JSON body carrying an `error` string. -/
def isFailure (r : HttpResponse) : Prop :=
  ∃ j, r.body = .json j ∧ hasErrorString j = true

/-- Whether a response's body is a JSON object carrying the given key. -/
def bodyHasKey (r : HttpResponse) (k : String) : Bool :=
  match r.body with
  | .json j => j.hasKey k
  | .bytes _ => false

/-- C2: for every request reaching the provider whose call returns a binary
payload (the SDK call resolves; the fetch response has an ok status), the
gateway's response has status 200, the headers Content-Type application/pdf
and Content-Disposition attachment filename generated.pdf, and a body equal
byte-for-byte to the provider's returned bytes, in both variants. -/
theorem C2_confirmed (env : Env) (h : String) (bs : List Nat) (st : Nat) (txt : String)
    (hh : h ≠ "")
    (ha : jsFalsy env.CLOUDFLARE_ACCOUNT_ID = false)
    (ht : jsFalsy env.CLOUDFLARE_API_TOKEN = false)
    (hok : 200 ≤ st ∧ st ≤ 299) :
    (convertSdk env (some h) (.payload bs)).1.status = 200 ∧
    (convertSdk env (some h) (.payload bs)).1.headers =
      [("Content-Type", "application/pdf"),
       ("Content-Disposition", "attachment; filename=\"generated.pdf\"")] ∧
    (convertSdk env (some h) (.payload bs)).1.body = .bytes bs ∧
    (convertFetch env (some h) (.resp st txt bs)).1.status = 200 ∧
    (convertFetch env (some h) (.resp st txt bs)).1.headers =
      [("Content-Type", "application/pdf"),
       ("Content-Disposition", "attachment; filename=\"generated.pdf\"")] ∧
    (convertFetch env (some h) (.resp st txt bs)).1.body = .bytes bs := by
  have hhf : jsFalsy (some h) = false := by simpa [jsFalsy] using hh
  refine ⟨?_, ?_, ?_, ?_, ?_, ?_⟩ <;>
    simp [convertSdk, convertFetch, hhf, ha, ht, hok, pdfSuccessResponse]

/-- C2 witness: a concrete request with the four PDF magic bytes. -/
theorem C2_confirmed_witness :
    (convertSdk ⟨some "acct", some "tok"⟩ (some "<h1>Hi</h1>")
      (.payload [37, 80, 68, 70])).1.body = .bytes [37, 80, 68, 70] :=
  (C2_confirmed ⟨some "acct", some "tok"⟩ "<h1>Hi</h1>" [37, 80, 68, 70] 200 ""
    (by decide) (by decide) (by decide) (by decide)).2.2.1

/-- C4: for every request whose html is missing (`none`) or empty, both
variants respond 400 with exactly the JSON body
error = "HTML content is required in the request body", and make no
outbound provider call. -/
theorem C4_confirmed (env : Env) (html : Option String)
    (so : SdkOutcome) (fo : FetchOutcome)
    (hh : jsFalsy html = true) :
    convertSdk env html so =
      (jsonResponse 400 [("error", htmlRequiredMsg)], none) ∧
    convertFetch env html fo =
      (jsonResponse 400 [("error", htmlRequiredMsg)], none) := by
  constructor <;> simp [convertSdk, convertFetch, hh]

/-- C4 witness: the empty-body request (absent html field). -/
theorem C4_confirmed_witness :
    convertSdk ⟨some "acct", some "tok"⟩ none (.payload []) =
      (jsonResponse 400 [("error", htmlRequiredMsg)], none) :=
  (C4_confirmed ⟨some "acct", some "tok"⟩ none (.payload []) (.thrown .otherValue)
    (by decide)).1

/-- C9: when the caught exception is not an Error instance, both variants
respond 500 with details equal to the fixed string "Unknown error". -/
theorem C9_confirmed (env : Env) (h : String)
    (hh : h ≠ "")
    (ha : jsFalsy env.CLOUDFLARE_ACCOUNT_ID = false)
    (ht : jsFalsy env.CLOUDFLARE_API_TOKEN = false) :
    (convertSdk env (some h) (.thrown .otherValue)).1 =
      jsonResponse 500 [("error", failedMsg), ("details", "Unknown error")] ∧
    (convertFetch env (some h) (.thrown .otherValue)).1 =
      jsonResponse 500 [("error", failedMsg), ("details", "Unknown error")] := by
  have hhf : jsFalsy (some h) = false := by simpa [jsFalsy] using hh
  constructor <;>
    simp [convertSdk, convertFetch, hhf, ha, ht, JsException.detailsOf]

/-- C9 witness: a concrete request whose provider call throws a non-Error. -/
theorem C9_confirmed_witness :
    (convertSdk ⟨some "acct", some "tok"⟩ (some "<h1>Hi</h1>")
        (.thrown .otherValue)).1 =
      jsonResponse 500 [("error", failedMsg), ("details", "Unknown error")] :=
  (C9_confirmed ⟨some "acct", some "tok"⟩ "<h1>Hi</h1>"
    (by decide) (by decide) (by decide)).1

/-- C1: counterexample. For a request with non-empty html and both
configuration values present, the raw-fetch variant's outbound call carries
a JSON body consisting of the html field alone — it has no addScriptTag
field and no pdfOptions/printBackground field — so that call does not carry
the fixed rendering options the claim requires of every provider call. -/
theorem C1_counterexample :
    ((convertFetch ⟨some "acct", some "tok"⟩ (some "<h1>Hi</h1>")
        (.resp 200 "" [37, 80, 68, 70])).2.map FetchRequest.body)
      = some [("html", "<h1>Hi</h1>")] ∧
    ((convertFetch ⟨some "acct", some "tok"⟩ (some "<h1>Hi</h1>")
        (.resp 200 "" [37, 80, 68, 70])).2.map
        (fun r => (JsonObj.hasKey r.body "addScriptTag",
                   JsonObj.hasKey r.body "pdfOptions")))
      = some (false, false) := by
  constructor <;> rfl

/-- C1 (amended): for every request with non-empty html and both
configuration values present, each variant makes exactly one outbound call
to the provider carrying the request's html; the SDK variant's call
additionally carries the fixed rendering options — the Tailwind script-tag
injection and background-graphics printing enabled — while the raw-fetch
variant's call body carries only the html. -/
theorem C1_amended (env : Env) (h : String) (so : SdkOutcome) (fo : FetchOutcome)
    (hh : h ≠ "")
    (ha : jsFalsy env.CLOUDFLARE_ACCOUNT_ID = false)
    (ht : jsFalsy env.CLOUDFLARE_API_TOKEN = false) :
    ((convertSdk env (some h) so).2.map
        (fun p => (p.html, p.addScriptTag, p.printBackground)))
      = some (h, [tailwindUrl], true) ∧
    ((convertFetch env (some h) fo).2.map FetchRequest.body)
      = some [("html", h)] := by
  have hhf : jsFalsy (some h) = false := by simpa [jsFalsy] using hh
  constructor
  · cases so <;> simp [convertSdk, hhf, ha, ht]
  · cases fo with
    | resp st txt bs =>
        by_cases hok : 200 ≤ st ∧ st ≤ 299 <;>
          simp [convertFetch, hhf, ha, ht, hok]
    | thrown e => simp [convertFetch, hhf, ha, ht]

/-- C1 witness: a concrete request through both variants. -/
theorem C1_amended_witness :
    ((convertSdk ⟨some "acct", some "tok"⟩ (some "<h1>Hi</h1>")
        (.payload [37, 80, 68, 70])).2.map
        (fun p => (p.html, p.addScriptTag, p.printBackground)))
      = some ("<h1>Hi</h1>", [tailwindUrl], true) :=
  (C1_amended ⟨some "acct", some "tok"⟩ "<h1>Hi</h1>"
    (.payload [37, 80, 68, 70]) (.resp 200 "" [37, 80, 68, 70])
    (by decide) (by decide) (by decide)).1

/-- C3: counterexample. In the raw-fetch variant, a non-2xx provider result
is passed through as the gateway's own status: with a 404 from the provider
the gateway responds 404, not 500 as the claim requires. -/
theorem C3_counterexample :
    (convertFetch ⟨some "acct", some "tok"⟩ (some "<h1>Hi</h1>")
        (.resp 404 "not found" [])).1.status = 404 ∧
    ¬ (convertFetch ⟨some "acct", some "tok"⟩ (some "<h1>Hi</h1>")
        (.resp 404 "not found" [])).1.status = 500 := by
  decide

/-- C3 (amended): when the provider call throws (network error or any
exception), both variants respond 500 with a JSON body carrying error and
details; when the raw-fetch variant receives a non-2xx provider response,
it responds with the provider's own status — not necessarily 500 — with a
JSON body carrying error and the provider's error text as details. -/
theorem C3_amended (env : Env) (h : String) (e : JsException) (st : Nat)
    (txt : String) (bs : List Nat)
    (hh : h ≠ "")
    (ha : jsFalsy env.CLOUDFLARE_ACCOUNT_ID = false)
    (ht : jsFalsy env.CLOUDFLARE_API_TOKEN = false)
    (hbad : ¬ (200 ≤ st ∧ st ≤ 299)) :
    (convertSdk env (some h) (.thrown e)).1 =
      jsonResponse 500 [("error", failedMsg), ("details", e.detailsOf)] ∧
    (convertFetch env (some h) (.thrown e)).1 =
      jsonResponse 500 [("error", failedMsg), ("details", e.detailsOf)] ∧
    (convertFetch env (some h) (.resp st txt bs)).1 =
      jsonResponse st [("error", upstreamFailedMsg), ("details", txt)] := by
  have hhf : jsFalsy (some h) = false := by simpa [jsFalsy] using hh
  refine ⟨?_, ?_, ?_⟩ <;>
    simp [convertSdk, convertFetch, hhf, ha, ht, hbad]

/-- C3 witness: a thrown network error and a provider 404. -/
theorem C3_amended_witness :
    (convertSdk ⟨some "acct", some "tok"⟩ (some "<h1>Hi</h1>")
        (.thrown (.errorInstance "connect ECONNREFUSED"))).1 =
      jsonResponse 500
        [("error", failedMsg), ("details", "connect ECONNREFUSED")] :=
  (C3_amended ⟨some "acct", some "tok"⟩ "<h1>Hi</h1>"
    (.errorInstance "connect ECONNREFUSED") 404 "not found" []
    (by decide) (by decide) (by decide) (by decide)).1

/-- C5: counterexample. With the account identifier absent but the request's
html empty (invalid), the response status is 400, not 500: the html check
runs before the configuration check, so the claim's "regardless of whether
the request's html is valid" fails. -/
theorem C5_counterexample :
    (convertSdk ⟨none, some "tok"⟩ (some "") (.payload [])).1.status = 400 ∧
    ¬ (convertSdk ⟨none, some "tok"⟩ (some "") (.payload [])).1.status = 500 := by
  decide

/-- C5 (amended): for every request with non-empty html, if the account
identifier or the API credential is absent (or empty), both variants
respond 500 with the configuration-error body and make no outbound provider
call; when the html is missing or empty, the 400 validation error takes
precedence over the configuration check. -/
theorem C5_amended (env : Env) (h : String) (so : SdkOutcome) (fo : FetchOutcome)
    (hh : h ≠ "")
    (hcfg : jsFalsy env.CLOUDFLARE_ACCOUNT_ID = true ∨
            jsFalsy env.CLOUDFLARE_API_TOKEN = true) :
    convertSdk env (some h) so =
      (jsonResponse 500 [("error", credentialsMsg)], none) ∧
    convertFetch env (some h) fo =
      (jsonResponse 500 [("error", credentialsMsg)], none) := by
  have hhf : jsFalsy (some h) = false := by simpa [jsFalsy] using hh
  rcases hcfg with hc | hc <;> constructor <;>
    simp [convertSdk, convertFetch, hhf, hc]

/-- C5 witness: valid html, missing credential. -/
theorem C5_amended_witness :
    convertSdk ⟨some "acct", none⟩ (some "<h1>Hi</h1>") (.payload []) =
      (jsonResponse 500 [("error", credentialsMsg)], none) :=
  (C5_amended ⟨some "acct", none⟩ "<h1>Hi</h1>" (.payload []) (.thrown .otherValue)
    (by decide) (Or.inr (by decide))).1

/-- C6: on every path of both variants, the response body is either the raw
PDF bytes of the success path or a well-formed JSON object carrying an
error field whose value is a string — never a raw stack trace and never an
empty body. In particular every failure path produces such a JSON object. -/
theorem C6_confirmed (env : Env) (html : Option String)
    (so : SdkOutcome) (fo : FetchOutcome) :
    ((∃ bs, (convertSdk env html so).1.body = .bytes bs) ∨
      (∃ j, (convertSdk env html so).1.body = .json j ∧ hasErrorString j = true)) ∧
    ((∃ bs, (convertFetch env html fo).1.body = .bytes bs) ∨
      (∃ j, (convertFetch env html fo).1.body = .json j ∧ hasErrorString j = true)) := by
  constructor
  · unfold convertSdk
    split
    · exact Or.inr ⟨_, rfl, rfl⟩
    · split
      · exact Or.inr ⟨_, rfl, rfl⟩
      · cases so with
        | payload bs => exact Or.inl ⟨bs, rfl⟩
        | thrown e => exact Or.inr ⟨_, rfl, rfl⟩
  · unfold convertFetch
    split
    · exact Or.inr ⟨_, rfl, rfl⟩
    · split
      · exact Or.inr ⟨_, rfl, rfl⟩
      · cases fo with
        | resp st txt bs =>
            by_cases hok : 200 ≤ st ∧ st ≤ 299
            · refine Or.inl ⟨bs, ?_⟩
              simp [hok, pdfSuccessResponse]
            · refine Or.inr
                ⟨[("error", upstreamFailedMsg), ("details", txt)], ?_, rfl⟩
              simp [hok, jsonResponse]
        | thrown e => exact Or.inr ⟨_, rfl, rfl⟩

/-- C7: counterexample. When the provider resolves with a zero-byte payload,
the gateway takes the success path: status 200 with an empty body — the
claim's "never returns a partial or empty PDF body on the success path"
fails, since the gateway performs no emptiness check. -/
theorem C7_counterexample :
    (convertSdk ⟨some "acct", some "tok"⟩ (some "<h1>Hi</h1>")
        (.payload [])).1.status = 200 ∧
    (convertSdk ⟨some "acct", some "tok"⟩ (some "<h1>Hi</h1>")
        (.payload [])).1.body = .bytes [] := by
  decide

/-- C7 (amended): every request produces exactly one of the two outcomes
Success (status 200 with a byte body) and Failure (a JSON body carrying an
error string), and any byte body the gateway returns is the provider's
payload in full — so it is empty or partial only insofar as the provider's
own payload is. -/
theorem C7_amended (env : Env) (html : Option String)
    (so : SdkOutcome) (fo : FetchOutcome) :
    ((isSuccess (convertSdk env html so).1 ∧ ¬ isFailure (convertSdk env html so).1) ∨
     (isFailure (convertSdk env html so).1 ∧ ¬ isSuccess (convertSdk env html so).1)) ∧
    ((isSuccess (convertFetch env html fo).1 ∧ ¬ isFailure (convertFetch env html fo).1) ∨
     (isFailure (convertFetch env html fo).1 ∧ ¬ isSuccess (convertFetch env html fo).1)) ∧
    (∀ bs, (convertSdk env html so).1.body = .bytes bs → so = .payload bs) ∧
    (∀ bs, (convertFetch env html fo).1.body = .bytes bs →
      ∃ st txt, fo = .resp st txt bs) := by
  refine ⟨?_, ?_, ?_, ?_⟩
  · unfold convertSdk
    split
    · exact Or.inr ⟨⟨_, rfl, rfl⟩, fun hs => by
        rcases hs.2 with ⟨bs, hbs⟩
        simp [jsonResponse] at hbs⟩
    · split
      · exact Or.inr ⟨⟨_, rfl, rfl⟩, fun hs => by
          rcases hs.2 with ⟨bs, hbs⟩
          simp [jsonResponse] at hbs⟩
      · cases so with
        | payload bs =>
            exact Or.inl ⟨⟨rfl, bs, rfl⟩, fun hf => by
              rcases hf with ⟨j, hj, _⟩
              simp [pdfSuccessResponse] at hj⟩
        | thrown e =>
            exact Or.inr ⟨⟨_, rfl, rfl⟩, fun hs => by
              rcases hs.2 with ⟨bs, hbs⟩
              simp [jsonResponse] at hbs⟩
  · unfold convertFetch
    split
    · exact Or.inr ⟨⟨_, rfl, rfl⟩, fun hs => by
        rcases hs.2 with ⟨bs, hbs⟩
        simp [jsonResponse] at hbs⟩
    · split
      · exact Or.inr ⟨⟨_, rfl, rfl⟩, fun hs => by
          rcases hs.2 with ⟨bs, hbs⟩
          simp [jsonResponse] at hbs⟩
      · cases fo with
        | resp st txt bs =>
            by_cases hok : 200 ≤ st ∧ st ≤ 299
            · refine Or.inl ⟨⟨?_, bs, ?_⟩, fun hf => by
                rcases hf with ⟨j, hj, _⟩
                simp [hok, pdfSuccessResponse] at hj⟩ <;>
                simp [hok, pdfSuccessResponse]
            · refine Or.inr
                ⟨⟨[("error", upstreamFailedMsg), ("details", txt)], ?_, rfl⟩,
                 fun hs => by
                  rcases hs.2 with ⟨bs2, hbs⟩
                  simp [hok, jsonResponse] at hbs⟩
              simp [hok, jsonResponse]
        | thrown e =>
            exact Or.inr ⟨⟨_, rfl, rfl⟩, fun hs => by
              rcases hs.2 with ⟨bs, hbs⟩
              simp [jsonResponse] at hbs⟩
  · intro bs hbs
    unfold convertSdk at hbs
    split at hbs
    · simp [jsonResponse] at hbs
    · split at hbs
      · simp [jsonResponse] at hbs
      · cases so with
        | payload bs2 =>
            simp [pdfSuccessResponse] at hbs
            rw [hbs]
        | thrown e => simp [jsonResponse] at hbs
  · intro bs hbs
    unfold convertFetch at hbs
    split at hbs
    · simp [jsonResponse] at hbs
    · split at hbs
      · simp [jsonResponse] at hbs
      · cases fo with
        | resp st txt bs2 =>
            by_cases hok : 200 ≤ st ∧ st ≤ 299
            · simp [hok, pdfSuccessResponse] at hbs
              exact ⟨st, txt, by rw [hbs]⟩
            · simp [hok, jsonResponse] at hbs
        | thrown e => simp [jsonResponse] at hbs

/-- C7 witness: the passthrough conjuncts applied at a concrete request. -/
theorem C7_amended_witness :
    SdkOutcome.payload [1, 2] = SdkOutcome.payload [1, 2] ∧
    (∃ st txt, FetchOutcome.resp 200 "" [1, 2] = FetchOutcome.resp st txt [1, 2]) := by
  have hmain := C7_amended ⟨some "acct", some "tok"⟩ (some "<h1>Hi</h1>")
    (.payload [1, 2]) (.resp 200 "" [1, 2])
  exact ⟨hmain.2.2.1 [1, 2] (by decide), hmain.2.2.2 [1, 2] (by decide)⟩

/-- C8: a configuration value that is present but equal to the empty string
behaves exactly like an unset one — replacing an empty-string value by an
absent one never changes the response or the outbound call — and for every
request with non-empty html an empty-string configuration value yields the
500 configuration-error response with no outbound provider call, in both
variants. -/
theorem C8_confirmed (acc tok html : Option String) (h : String)
    (so : SdkOutcome) (fo : FetchOutcome) (hh : h ≠ "") :
    convertSdk ⟨some "", tok⟩ html so = convertSdk ⟨none, tok⟩ html so ∧
    convertSdk ⟨acc, some ""⟩ html so = convertSdk ⟨acc, none⟩ html so ∧
    convertFetch ⟨some "", tok⟩ html fo = convertFetch ⟨none, tok⟩ html fo ∧
    convertFetch ⟨acc, some ""⟩ html fo = convertFetch ⟨acc, none⟩ html fo ∧
    convertSdk ⟨some "", tok⟩ (some h) so =
      (jsonResponse 500 [("error", credentialsMsg)], none) ∧
    convertSdk ⟨acc, some ""⟩ (some h) so =
      (jsonResponse 500 [("error", credentialsMsg)], none) ∧
    convertFetch ⟨some "", tok⟩ (some h) fo =
      (jsonResponse 500 [("error", credentialsMsg)], none) ∧
    convertFetch ⟨acc, some ""⟩ (some h) fo =
      (jsonResponse 500 [("error", credentialsMsg)], none) := by
  have hhf : jsFalsy (some h) = false := by simpa [jsFalsy] using hh
  have hempty : jsFalsy (some "") = true := by decide
  have hnone : jsFalsy none = true := by decide
  refine ⟨?_, ?_, ?_, ?_, ?_, ?_, ?_, ?_⟩ <;>
    simp [convertSdk, convertFetch, hhf, hempty, hnone]

/-- C8 witness: an empty-string credential at a concrete request. -/
theorem C8_confirmed_witness :
    convertSdk ⟨some "", some "tok"⟩ (some "<h1>Hi</h1>") (.payload []) =
      (jsonResponse 500 [("error", credentialsMsg)], none) :=
  (C8_confirmed (some "acct") (some "tok") (some "<h1>Hi</h1>") "<h1>Hi</h1>"
    (.payload []) (.thrown .otherValue) (by decide)).2.2.2.2.1

/-- C10: the 400 validation response and the 500 configuration response each
carry a JSON body that is exactly the single error field — in particular no
details field — and a details field appears in a response's body exactly
when the request reached the provider and the call failed (the SDK call
threw; the fetch call threw or returned a non-2xx status). -/
theorem C10_confirmed (env : Env) (html : Option String)
    (so : SdkOutcome) (fo : FetchOutcome) :
    (jsFalsy html = true →
      (convertSdk env html so).1.body = .json [("error", htmlRequiredMsg)] ∧
      (convertFetch env html fo).1.body = .json [("error", htmlRequiredMsg)]) ∧
    (jsFalsy html = false →
      (jsFalsy env.CLOUDFLARE_ACCOUNT_ID || jsFalsy env.CLOUDFLARE_API_TOKEN) = true →
      (convertSdk env html so).1.body = .json [("error", credentialsMsg)] ∧
      (convertFetch env html fo).1.body = .json [("error", credentialsMsg)]) ∧
    (bodyHasKey (convertSdk env html so).1 "details" = true ↔
      (jsFalsy html = false ∧
       (jsFalsy env.CLOUDFLARE_ACCOUNT_ID || jsFalsy env.CLOUDFLARE_API_TOKEN) = false ∧
       ∃ e, so = .thrown e)) ∧
    (bodyHasKey (convertFetch env html fo).1 "details" = true ↔
      (jsFalsy html = false ∧
       (jsFalsy env.CLOUDFLARE_ACCOUNT_ID || jsFalsy env.CLOUDFLARE_API_TOKEN) = false ∧
       ((∃ e, fo = .thrown e) ∨
        (∃ st txt bs, fo = .resp st txt bs ∧ ¬ (200 ≤ st ∧ st ≤ 299))))) := by
  cases hhtml : jsFalsy html with
  | true =>
      refine ⟨fun _ => ⟨?_, ?_⟩, fun hfalse => by simp [hhtml] at hfalse, ?_, ?_⟩ <;>
        simp [convertSdk, convertFetch, bodyHasKey, JsonObj.hasKey,
              jsonResponse, hhtml]
  | false =>
      cases hcfg : jsFalsy env.CLOUDFLARE_ACCOUNT_ID || jsFalsy env.CLOUDFLARE_API_TOKEN with
      | true =>
          refine ⟨fun htrue => by simp [hhtml] at htrue, fun _ _ => ⟨?_, ?_⟩, ?_, ?_⟩ <;>
            simp [convertSdk, convertFetch, bodyHasKey, JsonObj.hasKey,
                  jsonResponse, hhtml, hcfg]
      | false =>
          refine ⟨fun htrue => by simp [hhtml] at htrue,
                  fun _ htrue => by simp [hcfg] at htrue, ?_, ?_⟩
          · cases so with
            | payload bs =>
                simp [convertSdk, bodyHasKey, pdfSuccessResponse, hhtml, hcfg]
            | thrown e =>
                simp [convertSdk, bodyHasKey, JsonObj.hasKey, jsonResponse,
                      hhtml, hcfg]
          · cases fo with
            | resp st txt bs =>
                by_cases hok : 200 ≤ st ∧ st ≤ 299
                · simp [convertFetch, bodyHasKey, JsonObj.hasKey, jsonResponse,
                        pdfSuccessResponse, hhtml, hcfg, hok]
                · simp [convertFetch, bodyHasKey, JsonObj.hasKey, jsonResponse,
                        pdfSuccessResponse, hhtml, hcfg, hok]
                  omega
            | thrown e =>
                simp [convertFetch, bodyHasKey, JsonObj.hasKey, jsonResponse,
                      hhtml, hcfg]

/-- C10 witness: the validation body and a details-carrying exception body
at concrete requests. -/
theorem C10_confirmed_witness :
    (convertSdk ⟨some "acct", some "tok"⟩ none (.payload [])).1.body
      = .json [("error", htmlRequiredMsg)] ∧
    (bodyHasKey (convertSdk ⟨some "acct", some "tok"⟩ (some "<h1>Hi</h1>")
        (.thrown .otherValue)).1 "details" = true) := by
  constructor
  · exact ((C10_confirmed ⟨some "acct", some "tok"⟩ none (.payload [])
      (.thrown .otherValue)).1 (by decide)).1
  · exact (C10_confirmed ⟨some "acct", some "tok"⟩ (some "<h1>Hi</h1>")
      (.thrown .otherValue) (.thrown .otherValue)).2.2.1.mpr
      ⟨by decide, by decide, .otherValue, rfl⟩

end PapyrusPdf
